import Mathlib

/-!
Verification development for the SwiftPOS authentication/session subsystem
(`JWTAuthService`): JWT issuance, validation, refresh rotation and
blacklist-based revocation backed by a Redis-like key-value store.

Modelling conventions:
* Time is in whole seconds (`Nat`), as in the source which uses
  `Math.floor(Date.now() / 1000)` and jsonwebtoken's second-granularity claims.
* A `Token` is modelled as its decoded payload together with the secret that
  signed it.  The Token Codec (the external `jsonwebtoken` library) is modelled
  from the spec as an ideal tamper-evident codec: `verify` succeeds exactly when
  the secret matches and the encoded expiry has not passed, and token-string
  equality coincides with `Token` equality (JWT serialisation is injective).
* The key-value store is an association list of entries with absolute expiry
  timestamps; `GET` at time `now` only sees entries whose expiry is in the
  future, which models Redis TTL semantics.  Keys built by string templates in
  the source (`refresh_token:...`) are kept as strings; the blacklist key
  embeds the raw token.
* Each state-changing operation also returns the ordered list of key-value
  commands it issued, so that claims about "exactly one write" or about the
  store/delete order are expressible.
-/

namespace SwiftPOS

/-- Roles of `UserRole` (values ADMIN / MANAGER / CASHIER in the source). -/
inductive UserRole
  | admin
  | manager
  | cashier
deriving DecidableEq

/-- The `JWTPayload` interface: userId, storeId, role, email, permissions,
plus the optional `iat?` / `exp?` timestamp claims added by signing. -/
structure JWTPayload where
  userId : String
  storeId : String
  role : UserRole
  email : String
  permissions : List String
  iat : Option Nat
  exp : Option Nat
deriving DecidableEq

/-- A signed compact token: its decoded payload plus the signing secret.
Stands for the opaque JWT string; string equality of real tokens corresponds
to equality of this structure. -/
structure Token where
  payload : JWTPayload
  secret : String
deriving DecidableEq

/-- The `TokenPair` interface returned by `generateTokens` / `refreshTokens`. -/
structure TokenPair where
  accessToken : Token
  refreshToken : Token
  expiresIn : Nat
deriving DecidableEq

/-- The `StoreContext` projection returned by `extractStoreContext`. -/
structure StoreContext where
  storeId : String
  userId : String
  role : UserRole
  email : String
deriving DecidableEq

/-- Modelled from the spec: the Token Codec's `sign(claims, secret, ttl)`
(`jwt.sign(payload, secret, { expiresIn })` in the source, the library itself
being external): a deterministic signature over the claims with expiry
`now + ttl` and issued-at `now`. -/
def jwtSign (p : JWTPayload) (secret : String) (ttlSeconds : Nat) (now : Nat) : Token :=
  ⟨⟨p.userId, p.storeId, p.role, p.email, p.permissions, some now, some (now + ttlSeconds)⟩,
   secret⟩

/-- Modelled from the spec: the Token Codec's `verify(token, secret)`
(`jwt.verify` in the source): returns the claims when the signature matches
`secret` and the encoded expiry has not passed, and an invalid result
(here `none`, standing for the caught exception) otherwise. -/
def jwtVerify (t : Token) (secret : String) (now : Nat) : Option JWTPayload :=
  if t.secret = secret then
    match t.payload.exp with
    | some e => if now < e then some t.payload else none
    | none => some t.payload
  else none

/-- Modelled from the spec: the Token Codec's unverified `decode(token)`
(`jwt.decode` in the source): extracts the claims without any signature check. -/
def jwtDecode (t : Token) : Option JWTPayload :=
  some t.payload

/-- Keys of the key-value store.  Keys built from strings in the source stay
strings; the blacklist key `blacklist:{rawToken}` embeds the token. -/
inductive RedisKey
  | str (s : String)
  | blacklist (t : Token)
deriving DecidableEq

/-- Values stored in the key-value store: a raw refresh-token string or a
plain sentinel string such as "1". -/
inductive RVal
  | tok (t : Token)
  | str (s : String)
deriving DecidableEq

/-- One stored entry: key, value, and the absolute time at which it expires. -/
structure REntry where
  key : RedisKey
  val : RVal
  expiresAt : Nat
deriving DecidableEq

/-- The key-value store state. -/
abbrev RedisState := List REntry

/-- A key-value command, recorded in operation traces. -/
inductive RedisOp
  | get (k : RedisKey)
  | setEx (k : RedisKey) (ttl : Nat) (v : RVal)
  | del (k : RedisKey)
deriving DecidableEq

/-- Raw lookup of a key in the entry list (ignoring expiry). -/
def rlookup : RedisState → RedisKey → Option (RVal × Nat)
  | [], _ => none
  | e :: es, k => if e.key = k then some (e.val, e.expiresAt) else rlookup es k

/-- Remove every entry with the given key. -/
def rremove : RedisState → RedisKey → RedisState
  | [], _ => []
  | e :: es, k => if e.key = k then rremove es k else e :: rremove es k

/-- `GET key`: returns the stored value when present and not yet expired. -/
def redisGet (st : RedisState) (k : RedisKey) (now : Nat) : Option RVal :=
  match rlookup st k with
  | some (v, ex) => if now < ex then some v else none
  | none => none

/-- `SETEX key ttl value`: stores the value with expiry `now + ttl`,
replacing any previous entry at the key. -/
def redisSetEx (st : RedisState) (k : RedisKey) (ttl : Nat) (v : RVal) (now : Nat) : RedisState :=
  ⟨k, v, now + ttl⟩ :: rremove st k

/-- `DEL key`: removes the entry at the key. -/
def redisDel (st : RedisState) (k : RedisKey) : RedisState :=
  rremove st k

/-- The two signing secrets held by `JWTAuthService`. -/
structure AuthConfig where
  accessTokenSecret : String
  refreshTokenSecret : String
deriving DecidableEq

/-- `accessTokenExpiry = "15m"` in seconds. -/
def accessTokenExpirySeconds : Nat := 15 * 60

/-- `refreshTokenExpiry = "7d"` in seconds; also the literal `7 * 24 * 60 * 60`
passed to `setEx` in `generateTokens`. -/
def refreshTokenExpirySeconds : Nat := 7 * 24 * 60 * 60

/-- The template literal for the session-record key in the source:
`refresh_token:${userId}:${storeId}`. -/
def refreshTokenRedisKey (userId storeId : String) : String :=
  "refresh_token:" ++ userId ++ ":" ++ storeId

/-- The session-record key as a store key. -/
def sessionKey (userId storeId : String) : RedisKey :=
  RedisKey.str (refreshTokenRedisKey userId storeId)

/-- Definition following the words of the spec sentence for C8, which names the
session key `refresh:{userId}:{storeId}`; compared against
`refreshTokenRedisKey`, which is taken from the source. -/
def specClaimedSessionKey (userId storeId : String) : String :=
  "refresh:" ++ userId ++ ":" ++ storeId

/-- `JWTAuthService.generateTokens`: sign an access token (15 min) and a
refresh token (7 d) from the payload, store the refresh token under the
session key with a 7-day expiry, and return both with `expiresIn: 15 * 60`.
Also returns the new store state and the trace of key-value commands. -/
def generateTokens (cfg : AuthConfig) (now : Nat) (payload : JWTPayload) (st : RedisState) :
    TokenPair × RedisState × List RedisOp :=
  let accessToken := jwtSign payload cfg.accessTokenSecret accessTokenExpirySeconds now
  let refreshToken := jwtSign payload cfg.refreshTokenSecret refreshTokenExpirySeconds now
  let redisKey := sessionKey payload.userId payload.storeId
  (⟨accessToken, refreshToken, 15 * 60⟩,
   redisSetEx st redisKey (7 * 24 * 60 * 60) (RVal.tok refreshToken) now,
   [RedisOp.setEx redisKey (7 * 24 * 60 * 60) (RVal.tok refreshToken)])

/-- `JWTAuthService.isTokenBlacklisted`: `GET blacklist:{token}` and compare the
result with "1"; any store error is caught and yields `false` (fail-open),
which the `getFails` flag models. -/
def isTokenBlacklisted (st : RedisState) (now : Nat) (getFails : Bool) (token : Token) : Bool :=
  if getFails then false
  else if redisGet st (RedisKey.blacklist token) now = some (RVal.str "1") then true
  else false

/-- `JWTAuthService.validateAccessToken`: reject blacklisted tokens before any
signature check, otherwise verify with the access-token secret; every failure
is the `null` result. -/
def validateAccessToken (cfg : AuthConfig) (st : RedisState) (now : Nat)
    (blacklistGetFails : Bool) (token : Token) : Option JWTPayload :=
  if isTokenBlacklisted st now blacklistGetFails token then none
  else jwtVerify token cfg.accessTokenSecret now

/-- `JWTAuthService.validateRefreshToken`: verify with the refresh-token
secret, then `GET` the session key and require the stored value to equal the
presented token exactly (`refreshToken !== token` in the source, where a
missing key gives `null` and hence also fails).  Returns the claims on match,
plus the trace of key-value commands issued. -/
def validateRefreshToken (cfg : AuthConfig) (st : RedisState) (now : Nat) (token : Token)
    (userId storeId : String) : Option JWTPayload × List RedisOp :=
  match jwtVerify token cfg.refreshTokenSecret now with
  | none => (none, [])
  | some payload =>
    match redisGet st (sessionKey userId storeId) now with
    | some (RVal.tok stored) =>
      if stored = token then (some payload, [RedisOp.get (sessionKey userId storeId)])
      else (none, [RedisOp.get (sessionKey userId storeId)])
    | _ => (none, [RedisOp.get (sessionKey userId storeId)])

/-- `JWTAuthService.revokeRefreshToken`: `DEL` the session key. -/
def revokeRefreshToken (st : RedisState) (userId storeId : String) :
    RedisState × List RedisOp :=
  (redisDel st (sessionKey userId storeId), [RedisOp.del (sessionKey userId storeId)])

/-- `JWTAuthService.refreshTokens`: verify the presented refresh token to
recover userId/storeId, validate it against the stored session record, then
generate a new pair (storing the new refresh token) and delete the session
key; any failure yields `null`. -/
def refreshTokens (cfg : AuthConfig) (st : RedisState) (now : Nat) (refreshToken : Token) :
    Option TokenPair × RedisState × List RedisOp :=
  match jwtVerify refreshToken cfg.refreshTokenSecret now with
  | none => (none, st, [])
  | some payload =>
    match validateRefreshToken cfg st now refreshToken payload.userId payload.storeId with
    | (none, ops) => (none, st, ops)
    | (some validPayload, ops) =>
      let genResult := generateTokens cfg now validPayload st
      let revoked := revokeRefreshToken genResult.2.1 payload.userId payload.storeId
      (some genResult.1, revoked.1, ops ++ genResult.2.2 ++ revoked.2)

/-- `JWTAuthService.blacklistToken`: decode (unverified), and when the decoded
expiry exists and `ttl = exp - floor(now)` is positive, `SETEX blacklist:{token}
ttl "1"`; an already-expired token writes nothing.  (The JS truthiness check
`payload && payload.exp` also skips `exp = 0`, which the `ttl > 0` guard
subsumes since `0 - now ≤ 0`.) -/
def blacklistToken (st : RedisState) (now : Nat) (token : Token) :
    RedisState × List RedisOp :=
  match jwtDecode token with
  | none => (st, [])
  | some payload =>
    match payload.exp with
    | none => (st, [])
    | some e =>
      if now < e then
        (redisSetEx st (RedisKey.blacklist token) (e - now) (RVal.str "1") now,
         [RedisOp.setEx (RedisKey.blacklist token) (e - now) (RVal.str "1")])
      else (st, [])

/-- `JWTAuthService.revokeTokens`: blacklist the access token when one is
supplied, then always delete the refresh-token session record. -/
def revokeTokens (st : RedisState) (now : Nat) (userId storeId : String)
    (accessToken : Option Token) : RedisState × List RedisOp :=
  let afterBlacklist :=
    match accessToken with
    | some t => blacklistToken st now t
    | none => (st, [])
  let revoked := revokeRefreshToken afterBlacklist.1 userId storeId
  (revoked.1, afterBlacklist.2 ++ revoked.2)

/-- `JWTAuthService.extractStoreContext`: pure projection of the payload. -/
def extractStoreContext (payload : JWTPayload) : StoreContext :=
  ⟨payload.storeId, payload.userId, payload.role, payload.email⟩

/-- Drop the timestamp claims, keeping the semantic claims fields. -/
def stripTimestamps (p : JWTPayload) : JWTPayload :=
  ⟨p.userId, p.storeId, p.role, p.email, p.permissions, none, none⟩

/-- Concrete claims payload used by witnesses. -/
def samplePayload : JWTPayload :=
  ⟨"u1", "s1", UserRole.cashier, "cashier@example.com", ["sale:create"], none, none⟩

/-- Concrete configuration used by witnesses. -/
def sampleCfg : AuthConfig := ⟨"asecret", "rsecret"⟩

/-- A refresh token issued at time 0 for `samplePayload`. -/
def sampleRefreshToken : Token :=
  jwtSign samplePayload "rsecret" refreshTokenExpirySeconds 0

/-- The decoded payload of `sampleRefreshToken`. -/
def sampleSignedPayload : JWTPayload := sampleRefreshToken.payload

/-- An access token issued at time 0 for `samplePayload`. -/
def sampleAccessToken : Token :=
  jwtSign samplePayload "asecret" accessTokenExpirySeconds 0

/-- A store holding the session record for `sampleRefreshToken`. -/
def sampleState : RedisState :=
  [⟨sessionKey "u1" "s1", RVal.tok sampleRefreshToken, refreshTokenExpirySeconds⟩]

/-- A store holding a blacklist entry for `sampleAccessToken`. -/
def sampleBlacklistState : RedisState :=
  [⟨RedisKey.blacklist sampleAccessToken, RVal.str "1", 100⟩]

/-- The access token minted by the sample rotation at time 10. -/
def sampleNewAccessToken : Token :=
  jwtSign sampleSignedPayload "asecret" accessTokenExpirySeconds 10

/-- The refresh token minted by the sample rotation at time 10. -/
def sampleNewRefreshToken : Token :=
  jwtSign sampleSignedPayload "rsecret" refreshTokenExpirySeconds 10

/-- The pair returned by the sample rotation at time 10. -/
def sampleNewPair : TokenPair :=
  ⟨sampleNewAccessToken, sampleNewRefreshToken, accessTokenExpirySeconds⟩

/-- The key-value trace of the sample rotation at time 10. -/
def sampleOps : List RedisOp :=
  [RedisOp.get (sessionKey "u1" "s1"),
   RedisOp.setEx (sessionKey "u1" "s1") refreshTokenExpirySeconds
     (RVal.tok sampleNewRefreshToken),
   RedisOp.del (sessionKey "u1" "s1")]

theorem jwtVerify_payload {t : Token} {secret : String} {now : Nat} {p : JWTPayload}
    (h : jwtVerify t secret now = some p) : p = t.payload := by
  unfold jwtVerify at h
  split at h
  · split at h
    · split at h
      · exact (Option.some.injEq _ _ ▸ h).symm
      · exact absurd h (by simp)
    · exact (Option.some.injEq _ _ ▸ h).symm
  · exact absurd h (by simp)

theorem rlookup_rremove_self (st : RedisState) (k : RedisKey) :
    rlookup (rremove st k) k = none := by
  induction st with
  | nil => rfl
  | cons e es ih =>
    by_cases h : e.key = k
    · simpa [rremove, h] using ih
    · simpa [rremove, rlookup, h] using ih

theorem rlookup_rremove_ne (st : RedisState) (k k' : RedisKey) (h : k' ≠ k) :
    rlookup (rremove st k) k' = rlookup st k' := by
  induction st with
  | nil => rfl
  | cons e es ih =>
    by_cases he : e.key = k
    · have hne : k ≠ k' := fun hh => h hh.symm
      simpa [rremove, rlookup, he, hne] using ih
    · by_cases he' : e.key = k'
      · simp [rremove, rlookup, he, he', h]
      · simpa [rremove, rlookup, he, he'] using ih

theorem redisGet_rremove_self (st : RedisState) (k : RedisKey) (now : Nat) :
    redisGet (rremove st k) k now = none := by
  simp [redisGet, rlookup_rremove_self]

theorem redisGet_redisSetEx_self (st : RedisState) (k : RedisKey) (ttl : Nat) (v : RVal)
    (now now' : Nat) :
    redisGet (redisSetEx st k ttl v now) k now' =
      if now' < now + ttl then some v else none := by
  simp [redisGet, redisSetEx, rlookup]

theorem redisGet_redisSetEx_ne (st : RedisState) (k k' : RedisKey) (ttl : Nat) (v : RVal)
    (now now' : Nat) (h : k' ≠ k) :
    redisGet (redisSetEx st k ttl v now) k' now' = redisGet st k' now' := by
  have hne : k ≠ k' := fun hh => h hh.symm
  simp [redisGet, redisSetEx, rlookup, hne, rlookup_rremove_ne st k k' h]

theorem refreshTokens_eq_of_valid {cfg : AuthConfig} {st : RedisState} {now : Nat} {r : Token}
    {payload : JWTPayload}
    (hv : jwtVerify r cfg.refreshTokenSecret now = some payload)
    (hg : redisGet st (sessionKey payload.userId payload.storeId) now = some (RVal.tok r)) :
    refreshTokens cfg st now r =
      (some ⟨jwtSign payload cfg.accessTokenSecret accessTokenExpirySeconds now,
             jwtSign payload cfg.refreshTokenSecret refreshTokenExpirySeconds now, 15 * 60⟩,
       redisDel (redisSetEx st (sessionKey payload.userId payload.storeId)
           refreshTokenExpirySeconds
           (RVal.tok (jwtSign payload cfg.refreshTokenSecret refreshTokenExpirySeconds now)) now)
         (sessionKey payload.userId payload.storeId),
       [RedisOp.get (sessionKey payload.userId payload.storeId),
        RedisOp.setEx (sessionKey payload.userId payload.storeId) refreshTokenExpirySeconds
          (RVal.tok (jwtSign payload cfg.refreshTokenSecret refreshTokenExpirySeconds now)),
        RedisOp.del (sessionKey payload.userId payload.storeId)]) := by
  have hval : validateRefreshToken cfg st now r payload.userId payload.storeId
      = (some payload, [RedisOp.get (sessionKey payload.userId payload.storeId)]) := by
    simp [validateRefreshToken, hv, hg]
  simp [refreshTokens, hv, hval, generateTokens, revokeRefreshToken,
    refreshTokenExpirySeconds, accessTokenExpirySeconds]

theorem refreshTokens_some_inv {cfg : AuthConfig} {st : RedisState} {now : Nat} {r : Token}
    {pair : TokenPair} {st1 : RedisState} {ops : List RedisOp}
    (h : refreshTokens cfg st now r = (some pair, st1, ops)) :
    ∃ payload, jwtVerify r cfg.refreshTokenSecret now = some payload
      ∧ redisGet st (sessionKey payload.userId payload.storeId) now = some (RVal.tok r) := by
  cases hv : jwtVerify r cfg.refreshTokenSecret now with
  | none => simp [refreshTokens, hv] at h
  | some payload =>
    refine ⟨payload, rfl, ?_⟩
    cases hg : redisGet st (sessionKey payload.userId payload.storeId) now with
    | none => simp [refreshTokens, validateRefreshToken, hv, hg] at h
    | some v =>
      cases v with
      | str s => simp [refreshTokens, validateRefreshToken, hv, hg] at h
      | tok stored =>
        by_cases hs : stored = r
        · rw [hs]
        · simp [refreshTokens, validateRefreshToken, hv, hg, hs] at h

/-- C1: a refresh token that verifies under the refresh-token secret and exactly
matches the stored value for its decoded (userId, storeId) makes `refreshTokens`
return a non-null brand-new pair signed from the validated claims, with the
key-value trace storing the new refresh token and then deleting the session
record. -/
theorem claim_C1 (cfg : AuthConfig) (st : RedisState) (now : Nat) (r : Token)
    (payload : JWTPayload)
    (hverify : jwtVerify r cfg.refreshTokenSecret now = some payload)
    (hstored : redisGet st (sessionKey payload.userId payload.storeId) now
      = some (RVal.tok r)) :
    (refreshTokens cfg st now r).1 =
      some ⟨jwtSign payload cfg.accessTokenSecret accessTokenExpirySeconds now,
            jwtSign payload cfg.refreshTokenSecret refreshTokenExpirySeconds now, 15 * 60⟩
    ∧ (refreshTokens cfg st now r).2.2 =
      [RedisOp.get (sessionKey payload.userId payload.storeId),
       RedisOp.setEx (sessionKey payload.userId payload.storeId) refreshTokenExpirySeconds
         (RVal.tok (jwtSign payload cfg.refreshTokenSecret refreshTokenExpirySeconds now)),
       RedisOp.del (sessionKey payload.userId payload.storeId)] := by
  rw [refreshTokens_eq_of_valid hverify hstored]
  exact ⟨rfl, rfl⟩

/-- C2: once `refreshTokens` has returned a non-null pair for `r`, an
immediately following call on the resulting store state with the same `r`
returns null, the stored value for the session key being gone. -/
theorem claim_C2 (cfg : AuthConfig) (st : RedisState) (now : Nat) (r : Token)
    (pair : TokenPair) (st1 : RedisState) (ops : List RedisOp)
    (h : refreshTokens cfg st now r = (some pair, st1, ops)) (now' : Nat) :
    (refreshTokens cfg st1 now' r).1 = none := by
  obtain ⟨payload, hv, hg⟩ := refreshTokens_some_inv h
  rw [refreshTokens_eq_of_valid hv hg] at h
  have hst1 : st1 = redisDel (redisSetEx st (sessionKey payload.userId payload.storeId)
      refreshTokenExpirySeconds
      (RVal.tok (jwtSign payload cfg.refreshTokenSecret refreshTokenExpirySeconds now)) now)
      (sessionKey payload.userId payload.storeId) :=
    (congrArg (fun x => x.2.1) h).symm
  cases hv2 : jwtVerify r cfg.refreshTokenSecret now' with
  | none => simp [refreshTokens, hv2]
  | some payload2 =>
    have hp2 : payload2 = r.payload := jwtVerify_payload hv2
    have hp1 : payload = r.payload := jwtVerify_payload hv
    have hget : redisGet st1 (sessionKey payload2.userId payload2.storeId) now' = none := by
      rw [hp2, ← hp1, hst1]
      simp [redisDel, redisSetEx, redisGet_rremove_self]
    simp [refreshTokens, hv2, validateRefreshToken, hget]

/-- C3: revoking with a not-yet-expired, correctly signed access token
blacklists it, so `validateAccessToken` then returns null even though the
signature is valid and the expiry has not been reached. -/
theorem claim_C3 (cfg : AuthConfig) (st : RedisState) (now : Nat) (userId storeId : String)
    (t : Token) (e : Nat)
    (hexp : t.payload.exp = some e) (hnotexpired : now < e)
    (_hsig : t.secret = cfg.accessTokenSecret) :
    validateAccessToken cfg (revokeTokens st now userId storeId (some t)).1 now false t
      = none := by
  have httl : now < now + (e - now) := by omega
  have hbl : isTokenBlacklisted (revokeTokens st now userId storeId (some t)).1 now false t
      = true := by
    simp [revokeTokens, blacklistToken, jwtDecode, hexp, hnotexpired, revokeRefreshToken,
      redisDel, redisSetEx, isTokenBlacklisted, redisGet, rremove, rlookup, sessionKey, httl]
  simp [validateAccessToken, hbl]

/-- C4: `validateAccessToken` short-circuits to null on blacklist membership
without any signature check, and otherwise is decided by signature-and-expiry
verification under the access-token secret, returning the decoded claims on
success. -/
theorem claim_C4 (cfg : AuthConfig) (st : RedisState) (now : Nat) (getFails : Bool)
    (t : Token) :
    (isTokenBlacklisted st now getFails t = true →
        validateAccessToken cfg st now getFails t = none)
    ∧ (isTokenBlacklisted st now getFails t = false →
        validateAccessToken cfg st now getFails t = jwtVerify t cfg.accessTokenSecret now)
    ∧ (∀ p, isTokenBlacklisted st now getFails t = false →
        jwtVerify t cfg.accessTokenSecret now = some p →
        validateAccessToken cfg st now getFails t = some p) := by
  refine ⟨fun hb => ?_, fun hb => ?_, fun p hb hv => ?_⟩
  · simp [validateAccessToken, hb]
  · simp [validateAccessToken, hb]
  · simp [validateAccessToken, hb, hv]

/-- C5: `validateRefreshToken` returns null when verification under the
refresh-token secret fails, or when the stored session value is absent or not
exactly the presented token; on an exact match after successful verification it
returns the decoded claims. -/
theorem claim_C5 (cfg : AuthConfig) (st : RedisState) (now : Nat) (t : Token)
    (userId storeId : String) :
    (jwtVerify t cfg.refreshTokenSecret now = none →
        (validateRefreshToken cfg st now t userId storeId).1 = none)
    ∧ (redisGet st (sessionKey userId storeId) now = none →
        (validateRefreshToken cfg st now t userId storeId).1 = none)
    ∧ (∀ v, redisGet st (sessionKey userId storeId) now = some v → v ≠ RVal.tok t →
        (validateRefreshToken cfg st now t userId storeId).1 = none)
    ∧ (∀ p, jwtVerify t cfg.refreshTokenSecret now = some p →
        redisGet st (sessionKey userId storeId) now = some (RVal.tok t) →
        (validateRefreshToken cfg st now t userId storeId).1 = some p) := by
  refine ⟨fun hv => ?_, fun hg => ?_, fun v hg hne => ?_, fun p hv hg => ?_⟩
  · simp [validateRefreshToken, hv]
  · cases hv : jwtVerify t cfg.refreshTokenSecret now with
    | none => simp [validateRefreshToken, hv]
    | some p => simp [validateRefreshToken, hv, hg]
  · cases hv : jwtVerify t cfg.refreshTokenSecret now with
    | none => simp [validateRefreshToken, hv]
    | some p =>
      cases v with
      | str s => simp [validateRefreshToken, hv, hg]
      | tok stored =>
        have hs : stored ≠ t := fun hh => hne (by rw [hh])
        simp [validateRefreshToken, hv, hg, hs]
  · simp [validateRefreshToken, hv, hg]

/-- C6: `blacklistToken` writes a blacklist entry with time-to-live exactly the
remaining lifetime `exp - now` when that is positive, and writes nothing when
the token is already expired. -/
theorem claim_C6 (st : RedisState) (now : Nat) (t : Token) (e : Nat)
    (hexp : t.payload.exp = some e) :
    (now < e →
        blacklistToken st now t =
          (redisSetEx st (RedisKey.blacklist t) (e - now) (RVal.str "1") now,
           [RedisOp.setEx (RedisKey.blacklist t) (e - now) (RVal.str "1")]))
    ∧ (e ≤ now → blacklistToken st now t = (st, [])) := by
  refine ⟨fun h => ?_, fun h => ?_⟩
  · simp [blacklistToken, jwtDecode, hexp, h]
  · simp [blacklistToken, jwtDecode, hexp, Nat.not_lt.mpr h]

/-- C7: a key-value-store error during the blacklist lookup makes
`isTokenBlacklisted` report false (fail-open), so `validateAccessToken` is
decided solely by the signature-and-expiry check. -/
theorem claim_C7 (cfg : AuthConfig) (st : RedisState) (now : Nat) (t : Token) :
    isTokenBlacklisted st now true t = false
    ∧ validateAccessToken cfg st now true t = jwtVerify t cfg.accessTokenSecret now := by
  refine ⟨rfl, ?_⟩
  simp [validateAccessToken, isTokenBlacklisted]

/-- C8 counterexample: `generateTokens` writes under the key
`refresh_token:{userId}:{storeId}`, not under `refresh:{userId}:{storeId}` as
the claim words it, shown at a concrete payload. -/
theorem claim_C8_counterexample :
    (generateTokens sampleCfg 0 samplePayload []).2.2 =
      [RedisOp.setEx (RedisKey.str "refresh_token:u1:s1") (7 * 24 * 60 * 60)
        (RVal.tok (jwtSign samplePayload "rsecret" refreshTokenExpirySeconds 0))]
    ∧ "refresh_token:u1:s1" ≠ specClaimedSessionKey "u1" "s1" := by
  refine ⟨by decide, by decide⟩

/-- C8 (amended): `generateTokens` performs exactly one key-value write,
storing the refresh token under `refresh_token:{userId}:{storeId}` with a
7-day expiry, overwriting any prior value at that key and modifying no other
key. -/
theorem claim_C8_amended (cfg : AuthConfig) (now : Nat) (payload : JWTPayload)
    (st : RedisState) :
    (generateTokens cfg now payload st).2.2 =
      [RedisOp.setEx (sessionKey payload.userId payload.storeId) refreshTokenExpirySeconds
        (RVal.tok (jwtSign payload cfg.refreshTokenSecret refreshTokenExpirySeconds now))]
    ∧ (∀ now', now' < now + refreshTokenExpirySeconds →
        redisGet (generateTokens cfg now payload st).2.1
            (sessionKey payload.userId payload.storeId) now'
          = some (RVal.tok (jwtSign payload cfg.refreshTokenSecret
              refreshTokenExpirySeconds now)))
    ∧ (∀ k, k ≠ sessionKey payload.userId payload.storeId → ∀ now',
        redisGet (generateTokens cfg now payload st).2.1 k now' = redisGet st k now') := by
  refine ⟨rfl, fun now' h => ?_, fun k hk now' => ?_⟩
  · rw [show (generateTokens cfg now payload st).2.1
        = redisSetEx st (sessionKey payload.userId payload.storeId) (7 * 24 * 60 * 60)
            (RVal.tok (jwtSign payload cfg.refreshTokenSecret refreshTokenExpirySeconds now))
            now from rfl,
      redisGet_redisSetEx_self, if_pos]
    simpa [refreshTokenExpirySeconds] using h
  · rw [show (generateTokens cfg now payload st).2.1
        = redisSetEx st (sessionKey payload.userId payload.storeId) (7 * 24 * 60 * 60)
            (RVal.tok (jwtSign payload cfg.refreshTokenSecret refreshTokenExpirySeconds now))
            now from rfl]
    exact redisGet_redisSetEx_ne st (sessionKey payload.userId payload.storeId) k
      (7 * 24 * 60 * 60)
      (RVal.tok (jwtSign payload cfg.refreshTokenSecret refreshTokenExpirySeconds now))
      now now' hk

/-- C9: verifying a token signed from claims with the same secret yields the
same semantic claims as long as the current time has not passed the encoded
expiry `signTime + ttl`. -/
theorem claim_C9 (p : JWTPayload) (secret : String) (ttl now0 now : Nat)
    (h : now < now0 + ttl) :
    ∃ q, jwtVerify (jwtSign p secret ttl now0) secret now = some q
      ∧ stripTimestamps q = stripTimestamps p
      ∧ q.exp = some (now0 + ttl) := by
  refine ⟨(jwtSign p secret ttl now0).payload, ?_, rfl, rfl⟩
  simp [jwtSign, jwtVerify, h]

/-- C10: when `refreshTokens` returns a non-null pair, the session key for the
decoded (userId, storeId) holds nothing at return: the trace stores the new
refresh token and then deletes that same key, so the returned refresh token is
not stored and a subsequent `validateRefreshToken` on it returns null. -/
theorem claim_C10 (cfg : AuthConfig) (st : RedisState) (now : Nat) (r : Token)
    (pair : TokenPair) (st1 : RedisState) (ops : List RedisOp)
    (h : refreshTokens cfg st now r = (some pair, st1, ops)) :
    ∃ payload, jwtVerify r cfg.refreshTokenSecret now = some payload
      ∧ redisGet st1 (sessionKey payload.userId payload.storeId) now = none
      ∧ ops = [RedisOp.get (sessionKey payload.userId payload.storeId),
               RedisOp.setEx (sessionKey payload.userId payload.storeId)
                 refreshTokenExpirySeconds (RVal.tok pair.refreshToken),
               RedisOp.del (sessionKey payload.userId payload.storeId)]
      ∧ ∀ now'', (validateRefreshToken cfg st1 now'' pair.refreshToken
            payload.userId payload.storeId).1 = none := by
  obtain ⟨payload, hv, hg⟩ := refreshTokens_some_inv h
  rw [refreshTokens_eq_of_valid hv hg] at h
  have hsome : some (⟨jwtSign payload cfg.accessTokenSecret accessTokenExpirySeconds now,
      jwtSign payload cfg.refreshTokenSecret refreshTokenExpirySeconds now, 15 * 60⟩ : TokenPair)
      = some pair := congrArg Prod.fst h
  have hpair : pair = ⟨jwtSign payload cfg.accessTokenSecret accessTokenExpirySeconds now,
      jwtSign payload cfg.refreshTokenSecret refreshTokenExpirySeconds now, 15 * 60⟩ :=
    (Option.some.inj hsome).symm
  have hst1 : st1 = redisDel (redisSetEx st (sessionKey payload.userId payload.storeId)
      refreshTokenExpirySeconds
      (RVal.tok (jwtSign payload cfg.refreshTokenSecret refreshTokenExpirySeconds now)) now)
      (sessionKey payload.userId payload.storeId) :=
    (congrArg (fun x => x.2.1) h).symm
  have hops : ops = [RedisOp.get (sessionKey payload.userId payload.storeId),
      RedisOp.setEx (sessionKey payload.userId payload.storeId) refreshTokenExpirySeconds
        (RVal.tok (jwtSign payload cfg.refreshTokenSecret refreshTokenExpirySeconds now)),
      RedisOp.del (sessionKey payload.userId payload.storeId)] :=
    (congrArg (fun x => x.2.2) h).symm
  have hgone : ∀ m, redisGet st1 (sessionKey payload.userId payload.storeId) m = none := by
    intro m
    rw [hst1]
    simp [redisDel, redisSetEx, redisGet_rremove_self]
  refine ⟨payload, hv, hgone now, ?_, fun now'' => ?_⟩
  · rw [hops, hpair]
  · cases hv2 : jwtVerify pair.refreshToken cfg.refreshTokenSecret now'' with
    | none => simp [validateRefreshToken, hv2]
    | some p2 => simp [validateRefreshToken, hv2, hgone now'']

theorem claim_C1_witness :
    jwtVerify sampleRefreshToken sampleCfg.refreshTokenSecret 10 = some sampleSignedPayload
    ∧ redisGet sampleState (sessionKey sampleSignedPayload.userId sampleSignedPayload.storeId) 10
        = some (RVal.tok sampleRefreshToken)
    ∧ ((refreshTokens sampleCfg sampleState 10 sampleRefreshToken).1 =
        some ⟨jwtSign sampleSignedPayload sampleCfg.accessTokenSecret accessTokenExpirySeconds 10,
              jwtSign sampleSignedPayload sampleCfg.refreshTokenSecret
                refreshTokenExpirySeconds 10, 15 * 60⟩
      ∧ (refreshTokens sampleCfg sampleState 10 sampleRefreshToken).2.2 =
        [RedisOp.get (sessionKey sampleSignedPayload.userId sampleSignedPayload.storeId),
         RedisOp.setEx (sessionKey sampleSignedPayload.userId sampleSignedPayload.storeId)
           refreshTokenExpirySeconds
           (RVal.tok (jwtSign sampleSignedPayload sampleCfg.refreshTokenSecret
             refreshTokenExpirySeconds 10)),
         RedisOp.del (sessionKey sampleSignedPayload.userId sampleSignedPayload.storeId)]) :=
  ⟨by decide, by decide,
   claim_C1 sampleCfg sampleState 10 sampleRefreshToken sampleSignedPayload
     (by decide) (by decide)⟩

theorem claim_C2_witness :
    refreshTokens sampleCfg sampleState 10 sampleRefreshToken
        = (some sampleNewPair, [], sampleOps)
    ∧ (refreshTokens sampleCfg [] 11 sampleRefreshToken).1 = none :=
  ⟨by decide,
   claim_C2 sampleCfg sampleState 10 sampleRefreshToken sampleNewPair [] sampleOps
     (by decide) 11⟩

theorem claim_C3_witness :
    sampleAccessToken.payload.exp = some 900
    ∧ (10 : Nat) < 900
    ∧ sampleAccessToken.secret = sampleCfg.accessTokenSecret
    ∧ validateAccessToken sampleCfg (revokeTokens [] 10 "u1" "s1" (some sampleAccessToken)).1
        10 false sampleAccessToken = none :=
  ⟨by decide, by decide, by decide,
   claim_C3 sampleCfg [] 10 "u1" "s1" sampleAccessToken 900 (by decide) (by decide) (by decide)⟩

theorem claim_C4_witness :
    validateAccessToken sampleCfg sampleBlacklistState 10 false sampleAccessToken = none
    ∧ validateAccessToken sampleCfg [] 10 false sampleAccessToken
        = jwtVerify sampleAccessToken sampleCfg.accessTokenSecret 10
    ∧ validateAccessToken sampleCfg [] 10 false sampleAccessToken
        = some sampleAccessToken.payload :=
  ⟨(claim_C4 sampleCfg sampleBlacklistState 10 false sampleAccessToken).1 (by decide),
   (claim_C4 sampleCfg [] 10 false sampleAccessToken).2.1 (by decide),
   (claim_C4 sampleCfg [] 10 false sampleAccessToken).2.2 sampleAccessToken.payload
     (by decide) (by decide)⟩

theorem claim_C5_witness :
    (validateRefreshToken sampleCfg sampleState 10 sampleRefreshToken "u1" "s1").1
        = some sampleSignedPayload
    ∧ (validateRefreshToken sampleCfg [] 10 sampleRefreshToken "u1" "s1").1 = none :=
  ⟨(claim_C5 sampleCfg sampleState 10 sampleRefreshToken "u1" "s1").2.2.2 sampleSignedPayload
     (by decide) (by decide),
   (claim_C5 sampleCfg [] 10 sampleRefreshToken "u1" "s1").2.1 (by decide)⟩

theorem claim_C6_witness :
    sampleAccessToken.payload.exp = some 900
    ∧ blacklistToken [] 10 sampleAccessToken =
        (redisSetEx [] (RedisKey.blacklist sampleAccessToken) 890 (RVal.str "1") 10,
         [RedisOp.setEx (RedisKey.blacklist sampleAccessToken) 890 (RVal.str "1")])
    ∧ blacklistToken [] 1000 sampleAccessToken = ([], []) :=
  ⟨by decide,
   (claim_C6 [] 10 sampleAccessToken 900 (by decide)).1 (by decide),
   (claim_C6 [] 1000 sampleAccessToken 900 (by decide)).2 (by decide)⟩

theorem claim_C8_amended_witness :
    (5 : Nat) < 0 + refreshTokenExpirySeconds
    ∧ redisGet (generateTokens sampleCfg 0 samplePayload sampleState).2.1
        (sessionKey "u1" "s1") 5
        = some (RVal.tok (jwtSign samplePayload sampleCfg.refreshTokenSecret
            refreshTokenExpirySeconds 0))
    ∧ redisGet (generateTokens sampleCfg 0 samplePayload sampleState).2.1
        (RedisKey.str "other") 5 = redisGet sampleState (RedisKey.str "other") 5 :=
  ⟨by decide,
   (claim_C8_amended sampleCfg 0 samplePayload sampleState).2.1 5 (by decide),
   (claim_C8_amended sampleCfg 0 samplePayload sampleState).2.2 (RedisKey.str "other")
     (by decide) 5⟩

theorem claim_C9_witness :
    (10 : Nat) < 0 + 900
    ∧ ∃ q, jwtVerify (jwtSign samplePayload "rsecret" 900 0) "rsecret" 10 = some q
        ∧ stripTimestamps q = stripTimestamps samplePayload
        ∧ q.exp = some (0 + 900) :=
  ⟨by decide, claim_C9 samplePayload "rsecret" 900 0 10 (by decide)⟩

theorem claim_C10_witness :
    refreshTokens sampleCfg sampleState 10 sampleRefreshToken
        = (some sampleNewPair, [], sampleOps)
    ∧ ∃ payload, jwtVerify sampleRefreshToken sampleCfg.refreshTokenSecret 10 = some payload
        ∧ redisGet [] (sessionKey payload.userId payload.storeId) 10 = none
        ∧ sampleOps = [RedisOp.get (sessionKey payload.userId payload.storeId),
                       RedisOp.setEx (sessionKey payload.userId payload.storeId)
                         refreshTokenExpirySeconds (RVal.tok sampleNewPair.refreshToken),
                       RedisOp.del (sessionKey payload.userId payload.storeId)]
        ∧ ∀ now'', (validateRefreshToken sampleCfg [] now'' sampleNewPair.refreshToken
              payload.userId payload.storeId).1 = none :=
  ⟨by decide,
   claim_C10 sampleCfg sampleState 10 sampleRefreshToken sampleNewPair [] sampleOps (by decide)⟩

end SwiftPOS
